import Mathlib

/-!
Verification of the visitor-logging web service (automatexpos/earnonline).

The repository contains two variants of the same pipeline:
- `src/api/index.py` (the serverless handler; functions suffixed `_api` here), and
- `src/main.py` (the FastAPI app; functions suffixed `_main` here).

Request headers are modelled as association lists from lowercase header
names to values; a missing key models an absent header, an entry with an
empty value models a header that is present but empty.  Python truthiness
of optional strings (None and the empty string are falsy) is modelled by
`pyTruthy`.  External effects (reverse-DNS lookups, store construction,
store inserts and queries) are modelled by `Except`-valued oracles passed
as arguments; an `Except.error` value models the Python exception raised
by the corresponding call.
-/

namespace EarnOnline

/-- Request headers: an association list from (lowercase) header name to value. -/
def Headers := List (String × String)

/-- Header lookup, first matching key wins (Python dict lookup). -/
def Headers.get (h : Headers) (k : String) : Option String :=
  (h.find? (fun p => p.1 = k)).map (fun p => p.2)

/-- Python truthiness of an optional string: None and the empty string are falsy. -/
def pyTruthy : Option String → Bool
  | none => false
  | some s => !s.isEmpty

/-- Python `a or b` on optional strings: `a` if truthy, else `b`. -/
def pyOrS (a b : Option String) : Option String :=
  if pyTruthy a then a else b

/-- Characters removed by Python `str.strip()` with no argument. -/
def pyIsSpace (c : Char) : Bool :=
  c = ' ' || c = '\t' || c = '\n' || c = '\r' || c = Char.ofNat 11 || c = Char.ofNat 12

/-- Python `str.strip()`: drop leading and trailing whitespace. -/
def pyStrip (s : String) : String :=
  List.asString (((s.data.dropWhile pyIsSpace).reverse.dropWhile pyIsSpace).reverse)

/-- Python `s.split(",")[0]`: the prefix of `s` before the first comma
(`split` always returns a non-empty list, so indexing at 0 is safe; its
first element is exactly the prefix of `s` before the first comma). -/
def pySplitFirst (s : String) : String :=
  List.asString (s.data.takeWhile (fun c => c ≠ ','))

/-- Function `detect_ip` from `src/api/index.py` (lines 26-34).  Headers are read with
default value `""`, so an absent header and an empty header are
indistinguishable here.  Returns `(ip, x_forwarded_for)`; the second
component is the raw forwarded header when truthy, else Python `None`. -/
def detect_ip_api (headers : Headers) : String × Option String :=
  let xff := (headers.get "x-forwarded-for").getD ""
  let cf_ip := (headers.get "cf-connecting-ip").getD ""
  let real_ip := (headers.get "x-real-ip").getD ""
  if !xff.isEmpty then
    (pyStrip (pySplitFirst xff), some xff)
  else
    ((if !cf_ip.isEmpty then cf_ip else if !real_ip.isEmpty then real_ip else "unknown"),
     none)

/-- Function `detect_ip` from `src/main.py` (lines 55-60).  `client` models
`request.client.host if request.client else None`: the directly observed
transport peer address when a connection peer exists.  Returns `(ip, xff)`
where `xff` is always the raw header lookup result (possibly an empty
string, which Python returns unchanged as the second tuple component). -/
def detect_ip_main (headers : Headers) (client : Option String) :
    Option String × Option String :=
  let xff := headers.get "x-forwarded-for"
  let cf_ip := headers.get "cf-connecting-ip"
  let real_ip := headers.get "x-real-ip"
  let ip :=
    if pyTruthy xff then some (pyStrip (pySplitFirst (xff.getD "")))
    else pyOrS cf_ip (pyOrS real_ip client)
  (ip, xff)

/-- An external store-client handle, as produced by `create_client(url, key)`:
it carries only the static configuration it was constructed from. -/
structure Client where
  url : String
  key : String
deriving DecidableEq

/-- Function `reverse_dns` from `src/api/index.py` (lines 36-44).  `dns` is the outcome
of the `socket.gethostbyaddr(ip_address)` call (an `Except.error` models the
exception it raises on NXDOMAIN, timeout or malformed address).  The guard
`if ip_address and ip_address != "unknown"` is Python truthiness on a string;
the bare `except` catches every exception and the function returns `None`. -/
def reverse_dns_api (ip_address : String) (dns : Except String String) :
    Option String :=
  if !ip_address.isEmpty && ip_address != "unknown" then
    match dns with
    | .ok hostname => some hostname
    | .error _ => none
  else none

/-- Function `reverse_dns` from `src/main.py` (lines 62-67): `gethostbyaddr` with every
exception caught and mapped to `None`. -/
def reverse_dns_main (dns : Except String String) : Option String :=
  match dns with
  | .ok name => some name
  | .error _ => none

/-- The visit record assembled by `log_visit` in `src/api/index.py`
(lines 58-66); the `headers` snapshot field is carried as-is. -/
structure VisitRecordA where
  ts : String
  ip : String
  x_forwarded_for : Option String
  headers : Headers
  user_agent : String
  referer : String
  remote_host : Option String

/-- Result of one `log_visit` invocation: the returned boolean, the number
of store-insert calls that were made, and the record handed to the insert
call when one was made. -/
structure LogResult where
  ok : Bool
  insertAttempts : Nat
  record : Option VisitRecordA

/-- Function `log_visit` from `src/api/index.py` (lines 46-72).  `sb` is the handle
returned by `get_supabase()` (Python `None` when unavailable), `dns` the
outcome of the reverse-DNS system call, and `ins` the outcome of the single
`supabase.table("visits").insert(...).execute()` call.  The whole body after
the handle check runs inside `try`, and the `except` clause returns `False`;
both error outcomes therefore map to a returned value, never an exception. -/
def log_visit (sb : Option Client) (headers : Headers) (ts : String)
    (dns : Except String String) (ins : Except String Unit) : LogResult :=
  match sb with
  | none => ⟨false, 0, none⟩
  | some _ =>
    let ipxff := detect_ip_api headers
    let user_agent := (headers.get "user-agent").getD ""
    let referer := (headers.get "referer").getD ""
    let remote_host := reverse_dns_api ipxff.1 dns
    let r : VisitRecordA :=
      ⟨ts, ipxff.1, ipxff.2, headers, user_agent, referer, remote_host⟩
    match ins with
    | .ok _ => ⟨true, 1, some r⟩
    | .error _ => ⟨false, 1, some r⟩

/-- Method `handler.handle_home` from `src/api/index.py` (lines 105-149): calls
`log_visit`, ignores its boolean result, and always sends a 200 HTML
response.  Returns the HTTP status sent together with the recording result. -/
def handle_home (sb : Option Client) (headers : Headers) (ts : String)
    (dns : Except String String) (ins : Except String Unit) : Nat × LogResult :=
  let logged := log_visit sb headers ts dns ins
  (200, logged)

/-- The visit record assembled by `landing` in `src/main.py` (lines 78-87);
header lookups there default to `None`, so the scalar fields are optional. -/
structure VisitRecordM where
  ts : String
  ip : Option String
  x_forwarded_for : Option String
  headers : Headers
  user_agent : Option String
  referer : Option String
  remote_host : Option String

/-- Route `landing` from `src/main.py` (lines 69-101): resolves the address, does a
reverse-DNS lookup only when `ip` is truthy, attempts the insert inside
`try`/`except` (the exception is printed and handling continues), and always
returns a 200 HTML response.  Returns the HTTP status, the assembled record,
and the number of insert calls made. -/
def landing (headers : Headers) (client : Option String) (ts : String)
    (dns : Except String String) (ins : Except String Unit) :
    Nat × VisitRecordM × Nat :=
  let ipxff := detect_ip_main headers client
  let ua := headers.get "user-agent"
  let referer := headers.get "referer"
  let remote_host := if pyTruthy ipxff.1 then reverse_dns_main dns else none
  let r : VisitRecordM := ⟨ts, ipxff.1, ipxff.2, headers, ua, referer, remote_host⟩
  match ins with
  | .ok _ => (200, r, 1)
  | .error _ => (200, r, 1)

/-- Function `get_supabase` from `src/api/index.py` (lines 14-24).  `st` is the current
value of the module-level `_supabase_client` (initially `None`), `url` and
`key` the optional environment configuration, and `create` the outcome of the
`create_client` call.  Returns the new value of `_supabase_client` (which is
also the returned handle) together with a flag recording whether a
construction attempt was made on this call.  A construction exception is
caught and printed, leaving the handle `None`. -/
def get_supabase (st : Option Client) (url key : Option String)
    (create : Except String Client) : Option Client × Bool :=
  if st = none ∧ pyTruthy url ∧ pyTruthy key then
    match create with
    | .ok c => (some c, true)
    | .error _ => (none, true)
  else (st, false)

/-- Module initialization of `src/main.py` (lines 15-25): missing `SUPABASE_URL`
or `SUPABASE_KEY` raises `ValueError`, and `create_client` is called eagerly
at module load time, so a construction exception propagates and startup
fails. -/
def main_module_init (url key : Option String) (create : Except String Client) :
    Except String Client :=
  if !pyTruthy url then .error "SUPABASE_URL environment variable is required"
  else if !pyTruthy key then .error "SUPABASE_KEY environment variable is required"
  else create

/-- A persisted visits row as returned by the store: a timestamp (modelled as
a comparable instant) plus the recorded address. -/
structure VRow where
  ts : Nat
  ip : String
deriving DecidableEq

/-- Insert a row into a timestamp-descending list, keeping it descending. -/
def insertDesc (a : VRow) : List VRow → List VRow
  | [] => [a]
  | b :: l => if b.ts ≤ a.ts then a :: b :: l else b :: insertDesc a l

/-- Sort rows by timestamp, newest first. -/
def sortDesc : List VRow → List VRow
  | [] => []
  | a :: l => insertDesc a (sortDesc l)

/-- Modelled from the spec: the external persistence store is out of scope
(consumed only via an insert/query interface), so its execution of the query
built by the code — `select("*").order("ts", desc=True).limit(100)` — is
modelled per the section 6 contract `query_recent(limit)`: the stored rows
ordered by timestamp descending, truncated to the first 100. -/
def query_recent (stored : List VRow) : List VRow :=
  (sortDesc stored).take 100

/-- The fetch step of `handler.handle_admin` in `src/api/index.py`
(lines 179-186): `visits` starts empty, the query runs only when a store
handle exists, a query exception is printed and leaves `visits` empty, and
`result.data or []` maps a falsy (empty) result to `[]`.  `store` is the
store state, or an error when the store is unreachable. -/
def fetch_visits_api (sb : Option Client) (store : Except String (List VRow)) :
    List VRow :=
  match sb with
  | none => []
  | some _ =>
    match store with
    | .error _ => []
    | .ok stored =>
      let data := query_recent stored
      if data.isEmpty then [] else data

/-- Method `handler.handle_admin` from `src/api/index.py` (lines 169-251): compares
the caller-supplied key with `ADMIN_KEY` first and answers 401 with no fetch
on mismatch; otherwise fetches and renders a 200 dashboard.  Returns the
status, the fetched rows, and the number of store queries issued. -/
def handle_admin (admin_key cfgKey : String) (sb : Option Client)
    (store : Except String (List VRow)) : Nat × List VRow × Nat :=
  if admin_key ≠ cfgKey then (401, [], 0)
  else
    match sb with
    | none => (200, [], 0)
    | some _ =>
      match store with
      | .error _ => (200, [], 1)
      | .ok stored =>
        let data := query_recent stored
        (200, if data.isEmpty then [] else data, 1)

/-- Route `admin_view` from `src/main.py` (lines 103-127): a key mismatch raises
`HTTPException(401)` before any store access; otherwise the limited,
descending-ordered query runs inside `try`/`except` with `rows = []` on
failure, and `res.data or []` maps a falsy result to `[]`.  Returns the
status, the fetched rows, and the number of store queries issued. -/
def admin_view (key cfgKey : String) (store : Except String (List VRow)) :
    Nat × List VRow × Nat :=
  if key ≠ cfgKey then (401, [], 0)
  else
    match store with
    | .error _ => (200, [], 1)
    | .ok stored =>
      let rows := query_recent stored
      (200, if rows.isEmpty then [] else rows, 1)

/-- Timestamp-descending order on visit rows. -/
def tsDesc (a b : VRow) : Prop := b.ts ≤ a.ts

theorem isEmpty_getD (o : Option String) : (o.getD "").isEmpty = !pyTruthy o := by
  cases o with
  | none => rfl
  | some s => simp [pyTruthy]

theorem getD_of_not_truthy (o : Option String) (h : pyTruthy o = false) :
    o.getD "" = "" := by
  cases o with
  | none => rfl
  | some s =>
    have hs : s.isEmpty = true := by simpa [pyTruthy] using h
    simpa using (String.isEmpty_iff s).mp hs

theorem pyOrS_pos (a b : Option String) (h : pyTruthy a = true) : pyOrS a b = a := by
  simp [pyOrS, h]

theorem pyOrS_neg (a b : Option String) (h : pyTruthy a = false) : pyOrS a b = b := by
  simp [pyOrS, h]

theorem mem_insertDesc (x a : VRow) (l : List VRow) :
    x ∈ insertDesc a l ↔ x = a ∨ x ∈ l := by
  induction l with
  | nil => simp [insertDesc]
  | cons b l ih =>
    simp only [insertDesc]
    by_cases hb : b.ts ≤ a.ts
    · simp [hb]
    · simp only [if_neg hb, List.mem_cons, ih]
      tauto

theorem sorted_insertDesc (a : VRow) (l : List VRow)
    (hl : List.Sorted tsDesc l) : List.Sorted tsDesc (insertDesc a l) := by
  induction l with
  | nil => simp [insertDesc]
  | cons b l ih =>
    rw [List.sorted_cons] at hl
    simp only [insertDesc]
    by_cases hb : b.ts ≤ a.ts
    · rw [if_pos hb, List.sorted_cons]
      refine ⟨?_, List.sorted_cons.mpr hl⟩
      intro c hc
      rcases List.mem_cons.mp hc with rfl | hcl
      · exact hb
      · exact le_trans (hl.1 c hcl) hb
    · rw [if_neg hb, List.sorted_cons]
      refine ⟨?_, ih hl.2⟩
      intro c hc
      rcases (mem_insertDesc c a l).mp hc with rfl | hcl
      · exact Nat.le_of_not_le hb
      · exact hl.1 c hcl

theorem sorted_sortDesc (l : List VRow) : List.Sorted tsDesc (sortDesc l) := by
  induction l with
  | nil => simp [sortDesc]
  | cons a l ih => exact sorted_insertDesc a (sortDesc l) ih

theorem query_recent_length_le (s : List VRow) : (query_recent s).length ≤ 100 := by
  simp only [query_recent, List.length_take]
  omega

theorem query_recent_sorted (s : List VRow) :
    List.Sorted tsDesc (query_recent s) :=
  List.Pairwise.sublist (List.take_sublist 100 (sortDesc s)) (sorted_sortDesc s)

theorem query_recent_nil : query_recent [] = [] := rfl

theorem empty_isEmpty : "".isEmpty = true := rfl

theorem isEmpty_false_of_ne (v : String) (hv : v ≠ "") : v.isEmpty = false := by
  rcases Bool.eq_false_or_eq_true v.isEmpty with h1 | h1
  · exact absurd ((String.isEmpty_iff v).mp h1) hv
  · exact h1

theorem getD_ne_of_truthy (o : Option String) (h : pyTruthy o = true) :
    o.getD "" ≠ "" := by
  cases o with
  | none => simp [pyTruthy] at h
  | some s =>
    intro hs
    rw [Option.getD_some] at hs
    subst hs
    simp only [pyTruthy] at h
    exact absurd h (by decide)

theorem truthy_ne_some_empty (o : Option String) (h : pyTruthy o = true) :
    o ≠ some "" := by
  intro ho
  subst ho
  simp only [pyTruthy] at h
  exact absurd h (by decide)

theorem reverse_dns_api_error (ip e : String) :
    reverse_dns_api ip (.error e) = none := by
  simp [reverse_dns_api]

theorem reverse_dns_main_error (e : String) :
    reverse_dns_main (.error e) = none := rfl

/-- Shared characterization of both resolver variants on the fallback path
(no truthy forwarded header): the remaining tiers are consulted by Python
truthiness, and the forwarded chain is the raw header lookup (always `None`
in the api variant, the raw optional value in the main variant). -/
theorem detect_fallback (h : Headers) (peer : Option String)
    (hx : pyTruthy (h.get "x-forwarded-for") = false) :
    detect_ip_api h =
      ((if pyTruthy (h.get "cf-connecting-ip") then (h.get "cf-connecting-ip").getD ""
        else if pyTruthy (h.get "x-real-ip") then (h.get "x-real-ip").getD ""
        else "unknown"), none) ∧
    detect_ip_main h peer =
      ((if pyTruthy (h.get "cf-connecting-ip") then h.get "cf-connecting-ip"
        else if pyTruthy (h.get "x-real-ip") then h.get "x-real-ip"
        else peer), h.get "x-forwarded-for") := by
  constructor
  · simp [detect_ip_api, isEmpty_getD, Bool.not_not, hx]
  · simp [detect_ip_main, hx, pyOrS]

/-- Shared characterization of the rows component of `handle_admin`: either
no rows were obtained, or the store answered and the rows are exactly the
result of the limited, ordered query. -/
theorem handle_admin_rows (k cfg : String) (sb : Option Client)
    (store : Except String (List VRow)) :
    (handle_admin k cfg sb store).2.1 = [] ∨
      ∃ stored, store = .ok stored ∧
        (handle_admin k cfg sb store).2.1 = query_recent stored := by
  by_cases hk : k ≠ cfg
  · left; simp [handle_admin, hk]
  · cases sb with
    | none => left; simp [handle_admin, hk]
    | some c =>
      cases store with
      | error e => left; simp [handle_admin, hk]
      | ok stored =>
        right
        refine ⟨stored, rfl, ?_⟩
        by_cases hq : (query_recent stored).isEmpty
        · simp [handle_admin, hk, hq, List.isEmpty_iff.mp hq]
        · simp [handle_admin, hk, hq]

/-- Shared characterization of the rows component of `admin_view`. -/
theorem admin_view_rows (k cfg : String) (store : Except String (List VRow)) :
    (admin_view k cfg store).2.1 = [] ∨
      ∃ stored, store = .ok stored ∧
        (admin_view k cfg store).2.1 = query_recent stored := by
  by_cases hk : k ≠ cfg
  · left; simp [admin_view, hk]
  · cases store with
    | error e => left; simp [admin_view, hk]
    | ok stored =>
      right
      refine ⟨stored, rfl, ?_⟩
      by_cases hq : (query_recent stored).isEmpty
      · simp [admin_view, hk, hq, List.isEmpty_iff.mp hq]
      · simp [admin_view, hk, hq]

/-- C1: whenever a forwarded-for header is present with a non-empty value,
both resolver variants return as client address the first comma-separated
entry of that header with surrounding whitespace trimmed, and as forwarded
chain the full original header value unmodified; in particular the header
`x-forwarded-for: 203.0.113.5, 10.0.0.1` yields client address `203.0.113.5`
and chain `203.0.113.5, 10.0.0.1`. -/
theorem forwarded_first_entry :
    (∀ (h : Headers) (v : String), h.get "x-forwarded-for" = some v → v ≠ "" →
      detect_ip_api h = (pyStrip (pySplitFirst v), some v)) ∧
    (∀ (h : Headers) (peer : Option String) (v : String),
      h.get "x-forwarded-for" = some v → v ≠ "" →
      detect_ip_main h peer = (some (pyStrip (pySplitFirst v)), some v)) ∧
    detect_ip_api [("x-forwarded-for", "203.0.113.5, 10.0.0.1")] =
      ("203.0.113.5", some "203.0.113.5, 10.0.0.1") ∧
    detect_ip_main [("x-forwarded-for", "203.0.113.5, 10.0.0.1")] none =
      (some "203.0.113.5", some "203.0.113.5, 10.0.0.1") := by
  refine ⟨?_, ?_, by decide, by decide⟩
  · intro h v hget hv
    simp [detect_ip_api, hget, isEmpty_false_of_ne v hv]
  · intro h peer v hget hv
    simp [detect_ip_main, pyTruthy, hget, isEmpty_false_of_ne v hv]

/-- C1 witness: the universal part of `forwarded_first_entry` applied to a
concrete header mapping. -/
theorem forwarded_first_entry_witness :
    detect_ip_api [("x-forwarded-for", " 9.9.9.9 ,8.8.8.8")] =
      (pyStrip (pySplitFirst " 9.9.9.9 ,8.8.8.8"), some " 9.9.9.9 ,8.8.8.8") :=
  forwarded_first_entry.1 [("x-forwarded-for", " 9.9.9.9 ,8.8.8.8")]
    " 9.9.9.9 ,8.8.8.8" (by decide) (by decide)

/-- C3 counterexample: with a present-but-empty CDN connecting-IP header and
a present-but-empty forwarded header, the resolver does not use the CDN
header (the claim says a present header is used): Python truthiness skips
the empty value and the real-IP tier wins; moreover the forwarded chain
returned by the main variant is the empty string, not absent. -/
theorem present_empty_header_skipped :
    detect_ip_main
        [("x-forwarded-for", ""), ("cf-connecting-ip", ""),
         ("x-real-ip", "198.51.100.7")] none =
      (some "198.51.100.7", some "") := by decide

/-- C3 (amended): with no present-and-non-empty forwarded header, the
resolver uses the CDN connecting-IP header if present and non-empty, else
the real-IP header if present and non-empty, else (in the main variant) the
transport peer address; the api variant falls back to the "unknown" marker
with an absent chain, while the main variant returns the raw forwarded
header lookup (absent, or the empty string when the header is present but
empty) as the chain. -/
theorem fallback_tiers (h : Headers) (peer : Option String)
    (hx : pyTruthy (h.get "x-forwarded-for") = false) :
    detect_ip_api h =
      ((if pyTruthy (h.get "cf-connecting-ip") then (h.get "cf-connecting-ip").getD ""
        else if pyTruthy (h.get "x-real-ip") then (h.get "x-real-ip").getD ""
        else "unknown"), none) ∧
    detect_ip_main h peer =
      ((if pyTruthy (h.get "cf-connecting-ip") then h.get "cf-connecting-ip"
        else if pyTruthy (h.get "x-real-ip") then h.get "x-real-ip"
        else peer), h.get "x-forwarded-for") :=
  detect_fallback h peer hx

/-- C3 witness: `fallback_tiers` applied to a concrete header mapping with
only a CDN connecting-IP header. -/
theorem fallback_tiers_witness :
    detect_ip_api [("cf-connecting-ip", "198.51.100.7")] = ("198.51.100.7", none) ∧
    detect_ip_main [("cf-connecting-ip", "198.51.100.7")] none =
      (some "198.51.100.7", none) := by
  have hft := fallback_tiers [("cf-connecting-ip", "198.51.100.7")] none (by decide)
  constructor
  · rw [hft.1]; decide
  · rw [hft.2]; decide

/-- C4 counterexample: with no header signal and no transport peer address,
the main variant returns an absent (null) client address, not the explicit
"unknown" marker the claim requires. -/
theorem no_signal_main_absent :
    (detect_ip_main [] none).1 = none ∧
    (detect_ip_main [] none).1 ≠ some "unknown" := by decide

/-- C4 (amended): with no truthy header signal and no peer address, the api
variant returns the explicit "unknown" marker (never absent, never the
empty string), while the main variant returns an absent client address. -/
theorem no_signal_unknown_marker (h : Headers)
    (h1 : pyTruthy (h.get "x-forwarded-for") = false)
    (h2 : pyTruthy (h.get "cf-connecting-ip") = false)
    (h3 : pyTruthy (h.get "x-real-ip") = false) :
    detect_ip_api h = ("unknown", none) ∧ (detect_ip_main h none).1 = none := by
  constructor
  · simp [detect_ip_api, isEmpty_getD, Bool.not_not, h1, h2, h3, empty_isEmpty,
      getD_of_not_truthy _ h2, getD_of_not_truthy _ h3]
  · simp [detect_ip_main, h1, pyOrS, h2, h3]

/-- C4 witness: `no_signal_unknown_marker` applied to the empty header
mapping. -/
theorem no_signal_unknown_marker_witness :
    detect_ip_api [] = ("unknown", none) ∧ (detect_ip_main [] none).1 = none :=
  no_signal_unknown_marker [] (by decide) (by decide) (by decide)

/-- C5 counterexample: the forwarded header `","` makes both variants return
the empty string as client address (the trimmed first comma-separated entry
of that header is empty), so the resolved client address can be empty. -/
theorem comma_header_empty_client :
    (detect_ip_api [("x-forwarded-for", ",")]).1 = "" ∧
    (detect_ip_main [("x-forwarded-for", ",")] none).1 = some "" := by decide

/-- C5 (amended): the client address is never the empty string provided no
truthy forwarded header is present and (in the main variant) the peer
address is not itself the empty string; a truthy forwarded header whose
first trimmed entry is empty, or an empty peer host, can produce an empty
client address. -/
theorem fallback_client_nonempty (h : Headers) (peer : Option String)
    (hx : pyTruthy (h.get "x-forwarded-for") = false) (hp : peer ≠ some "") :
    (detect_ip_api h).1 ≠ "" ∧ (detect_ip_main h peer).1 ≠ some "" := by
  obtain ⟨hapi, hmain⟩ := detect_fallback h peer hx
  rw [hapi, hmain]
  constructor
  · by_cases h2 : pyTruthy (h.get "cf-connecting-ip") = true
    · simpa [h2] using getD_ne_of_truthy _ h2
    · by_cases h3 : pyTruthy (h.get "x-real-ip") = true
      · simp only [Bool.not_eq_true] at h2
        simpa [h2, h3] using getD_ne_of_truthy _ h3
      · simp only [Bool.not_eq_true] at h2 h3
        simp [h2, h3]
  · by_cases h2 : pyTruthy (h.get "cf-connecting-ip") = true
    · simpa [h2] using truthy_ne_some_empty _ h2
    · by_cases h3 : pyTruthy (h.get "x-real-ip") = true
      · simp only [Bool.not_eq_true] at h2
        simpa [h2, h3] using truthy_ne_some_empty _ h3
      · simp only [Bool.not_eq_true] at h2 h3
        simpa [h2, h3] using hp

/-- C5 witness: `fallback_client_nonempty` applied to a concrete header
mapping carrying only a real-IP header. -/
theorem fallback_client_nonempty_witness :
    (detect_ip_api [("x-real-ip", "203.0.113.9")]).1 ≠ "" ∧
    (detect_ip_main [("x-real-ip", "203.0.113.9")] none).1 ≠ some "" :=
  fallback_client_nonempty [("x-real-ip", "203.0.113.9")] none
    (by decide) (by decide)

/-- C10 counterexample: with a present-but-empty forwarded header, the main
variant returns the chain as the (present) empty string even though the
header value is not non-empty, and the client address (absent) is not the
trimmed first comma-separated entry of that chain. -/
theorem empty_forwarded_chain_present :
    detect_ip_main [("x-forwarded-for", "")] none = (none, some "") := by decide

/-- C10 (amended): in the api variant, the forwarded chain is present
exactly when the forwarded header is truthy (present and non-empty), and a
present chain is the raw header value with the client address equal to its
trimmed first comma-separated entry; in the main variant the chain is
always the raw header lookup (so a present-but-empty header yields a
present, empty chain), and the linkage between client address and chain
holds whenever the chain value is non-empty. -/
theorem chain_linkage (h : Headers) (peer : Option String) :
    ((detect_ip_api h).2 ≠ none ↔ pyTruthy (h.get "x-forwarded-for") = true) ∧
    (∀ c, (detect_ip_api h).2 = some c →
      h.get "x-forwarded-for" = some c ∧
      (detect_ip_api h).1 = pyStrip (pySplitFirst c)) ∧
    ((detect_ip_main h peer).2 = h.get "x-forwarded-for") ∧
    (∀ c, (detect_ip_main h peer).2 = some c → c ≠ "" →
      (detect_ip_main h peer).1 = some (pyStrip (pySplitFirst c))) := by
  rcases ho : h.get "x-forwarded-for" with _ | v
  · refine ⟨?_, ?_, ?_, ?_⟩ <;>
      simp [detect_ip_api, detect_ip_main, ho, pyTruthy, empty_isEmpty]
  · by_cases hv : v = ""
    · subst hv
      refine ⟨?_, ?_, ?_, ?_⟩ <;>
        simp [detect_ip_api, detect_ip_main, ho, pyTruthy, empty_isEmpty]
    · have hve : v.isEmpty = false := isEmpty_false_of_ne v hv
      refine ⟨?_, ?_, ?_, ?_⟩ <;>
        simp [detect_ip_api, detect_ip_main, ho, pyTruthy, hve]

/-- C10 witness: `chain_linkage` applied to a concrete header mapping with a
non-empty forwarded header. -/
theorem chain_linkage_witness :
    (detect_ip_main [("x-forwarded-for", "7.7.7.7, 1.1.1.1")] none).1 =
      some (pyStrip (pySplitFirst "7.7.7.7, 1.1.1.1")) :=
  (chain_linkage [("x-forwarded-for", "7.7.7.7, 1.1.1.1")] none).2.2.2
    "7.7.7.7, 1.1.1.1" (by decide) (by decide)

/-- C2 counterexample: a DNS-lookup error is caught but is not reported as a
failure result: with a working store the insert still runs and `log_visit`
returns True (visit recorded), so not every caught DNS error is treated as
"visit not recorded". -/
theorem dns_error_still_records :
    (log_visit (some ⟨"url", "key"⟩) [] "2026-01-01T00:00:00"
        (.error "nxdomain") (.ok ())).ok = true := by decide

/-- C2 (amended): the Visit Recorder never raises: every storage error is
caught and yields the failure result without the insert being retried (at
most one insert attempt per invocation), every DNS-lookup error is caught
and yields an absent remote_host while recording proceeds (possibly
succeeding), and in both variants the response path of the caller completes with
its normal 200 response regardless of the recording outcome. -/
theorem recorder_total_no_retry (sb : Option Client) (headers : Headers)
    (ts : String) (dns : Except String String) (ins : Except String Unit) :
    (∀ e, ins = .error e → (log_visit sb headers ts dns ins).ok = false) ∧
    (log_visit sb headers ts dns ins).insertAttempts ≤ 1 ∧
    (∀ e r, dns = .error e → (log_visit sb headers ts dns ins).record = some r →
      r.remote_host = none) ∧
    (handle_home sb headers ts dns ins).1 = 200 ∧
    (∀ client, (landing headers client ts dns ins).1 = 200 ∧
      (landing headers client ts dns ins).2.2 = 1 ∧
      (∀ e, dns = .error e →
        (landing headers client ts dns ins).2.1.remote_host = none)) := by
  refine ⟨?_, ?_, ?_, ?_, ?_⟩
  · intro e hins
    subst hins
    cases sb <;> simp [log_visit]
  · cases sb <;> cases ins <;> simp [log_visit]
  · intro e r hdns hrec
    subst hdns
    cases sb with
    | none => simp [log_visit] at hrec
    | some c =>
      cases ins <;>
        · simp only [log_visit, reverse_dns_api_error, Option.some.injEq] at hrec
          rw [← hrec]
  · cases sb <;> cases ins <;> rfl
  · intro client
    refine ⟨?_, ?_, ?_⟩
    · cases ins <;> rfl
    · cases ins <;> rfl
    · intro e hdns
      subst hdns
      cases ins <;>
        · simp [landing, reverse_dns_main_error]

/-- C2 witness: `recorder_total_no_retry` applied at a failing store and a
failing DNS lookup. -/
theorem recorder_total_no_retry_witness :
    (log_visit (some ⟨"url", "key"⟩) [] "t0" (.error "timeout")
        (.error "store down")).ok = false ∧
    (handle_home (some ⟨"url", "key"⟩) [] "t0" (.error "timeout")
        (.error "store down")).1 = 200 :=
  ⟨(recorder_total_no_retry (some ⟨"url", "key"⟩) [] "t0" (.error "timeout")
      (.error "store down")).1 "store down" rfl,
   (recorder_total_no_retry (some ⟨"url", "key"⟩) [] "t0" (.error "timeout")
      (.error "store down")).2.2.2.1⟩

/-- C6: for every store state and every admin request, the rows obtained by
the history fetch paths of both variants number at most 100, are ordered by
timestamp descending, and are the empty sequence (not an error) when the
store is unreachable or empty. -/
theorem history_query_bounded (k cfg : String) (sb : Option Client)
    (store : Except String (List VRow)) :
    ((handle_admin k cfg sb store).2.1.length ≤ 100 ∧
     List.Sorted tsDesc (handle_admin k cfg sb store).2.1 ∧
     (∀ e, store = .error e → (handle_admin k cfg sb store).2.1 = []) ∧
     (store = .ok [] → (handle_admin k cfg sb store).2.1 = [])) ∧
    ((admin_view k cfg store).2.1.length ≤ 100 ∧
     List.Sorted tsDesc (admin_view k cfg store).2.1 ∧
     (∀ e, store = .error e → (admin_view k cfg store).2.1 = []) ∧
     (store = .ok [] → (admin_view k cfg store).2.1 = [])) := by
  constructor
  · rcases handle_admin_rows k cfg sb store with hr | ⟨stored, hst, hr⟩
    · rw [hr]
      exact ⟨by simp, by simp, fun e he => rfl, fun he => rfl⟩
    · rw [hr]
      refine ⟨query_recent_length_le stored, query_recent_sorted stored, ?_, ?_⟩
      · intro e he
        rw [he] at hst
        cases hst
      · intro he
        rw [he] at hst
        injection hst with hst
        rw [← hst, query_recent_nil]
  · rcases admin_view_rows k cfg store with hr | ⟨stored, hst, hr⟩
    · rw [hr]
      exact ⟨by simp, by simp, fun e he => rfl, fun he => rfl⟩
    · rw [hr]
      refine ⟨query_recent_length_le stored, query_recent_sorted stored, ?_, ?_⟩
      · intro e he
        rw [he] at hst
        cases hst
      · intro he
        rw [he] at hst
        injection hst with hst
        rw [← hst, query_recent_nil]

/-- C6 witness: `history_query_bounded` applied at an unreachable store and
at an empty store. -/
theorem history_query_bounded_witness :
    (handle_admin "s3cret" "s3cret" (some ⟨"url", "key"⟩)
        (.error "store unreachable")).2.1 = [] ∧
    (admin_view "s3cret" "s3cret" (.ok [])).2.1 = [] :=
  ⟨(history_query_bounded "s3cret" "s3cret" (some ⟨"url", "key"⟩)
      (.error "store unreachable")).1.2.2.1 "store unreachable" rfl,
   (history_query_bounded "s3cret" "s3cret" (some ⟨"url", "key"⟩)
      (.ok [])).2.2.2.2 rfl⟩

/-- C7: both reverse-DNS wrappers map a failed lookup (here: a timeout
raised by `gethostbyaddr`) to an absent remote host instead of propagating
an error.  (The bound itself is absent from the code: `gethostbyaddr` is
invoked with no timeout configured, so only the failure-handling half of
the lookup contract is realized.) -/
theorem dns_failure_absent_host :
    reverse_dns_api "203.0.113.5" (.error "timed out") = none ∧
    reverse_dns_main (.error "timed out") = none := by decide

/-- C8 counterexample: in the main variant the client is constructed eagerly
at module import: the module initialization outcome is exactly the
construction outcome, so a construction failure propagates and startup
fails instead of being retried lazily on next use. -/
theorem eager_init_failure_fatal :
    main_module_init (some "https://db.example") (some "service-key")
        (.error "connection refused") = .error "connection refused" := rfl

/-- C8 (amended): in the api variant the store-client handle is lazily
initialized: with configuration present, a first use attempts construction,
a construction failure leaves the handle absent (and is non-fatal: request
handling still answers 200 with the visit simply not recorded), the next
use attempts construction again, and a successfully constructed handle is
returned unchanged by every later call with no further construction
attempt; in the main variant the client is instead constructed eagerly at
module startup and the construction outcome (including failure)
propagates. -/
theorem lazy_store_client (u k : Option String) (c : Client) (e : String)
    (hu : pyTruthy u = true) (hk : pyTruthy k = true) :
    get_supabase none u k (.error e) = (none, true) ∧
    get_supabase none u k (.ok c) = (some c, true) ∧
    (∀ create, get_supabase (some c) u k create = (some c, false)) ∧
    (∀ create, main_module_init u k create = create) ∧
    (∀ headers ts dns ins, (handle_home none headers ts dns ins).1 = 200 ∧
      (log_visit none headers ts dns ins).ok = false) := by
  refine ⟨?_, ?_, ?_, ?_, ?_⟩
  · simp [get_supabase, hu, hk]
  · simp [get_supabase, hu, hk]
  · intro create
    simp [get_supabase]
  · intro create
    simp [main_module_init, hu, hk]
  · intro headers ts dns ins
    exact ⟨rfl, rfl⟩

/-- C8 witness: `lazy_store_client` applied at concrete configuration. -/
theorem lazy_store_client_witness :
    get_supabase none (some "url") (some "key") (.error "boom") = (none, true) ∧
    get_supabase none (some "url") (some "key") (.ok ⟨"url", "key"⟩) =
      (some ⟨"url", "key"⟩, true) :=
  ⟨(lazy_store_client (some "url") (some "key") ⟨"url", "key"⟩ "boom"
      (by decide) (by decide)).1,
   (lazy_store_client (some "url") (some "key") ⟨"url", "key"⟩ "boom"
      (by decide) (by decide)).2.1⟩

/-- C9: for every caller-supplied admin key different from the configured
secret, both variants answer 401 with no rows disclosed and zero store
queries issued; the store is consulted only after the key comparison
succeeds. -/
theorem admin_unauthorized (key cfg : String) (sb : Option Client)
    (store : Except String (List VRow)) (hne : key ≠ cfg) :
    handle_admin key cfg sb store = (401, [], 0) ∧
    admin_view key cfg store = (401, [], 0) := by
  constructor
  · simp [handle_admin, hne]
  · simp [admin_view, hne]

/-- C9 witness: `admin_unauthorized` applied at a concrete wrong key. -/
theorem admin_unauthorized_witness :
    handle_admin "wrong" "s3cret" (some ⟨"url", "key"⟩) (.ok []) =
      (401, [], 0) ∧
    admin_view "wrong" "s3cret" (.ok []) = (401, [], 0) :=
  admin_unauthorized "wrong" "s3cret" (some ⟨"url", "key"⟩) (.ok [])
    (by decide)

end EarnOnline
